import Mathlib

/-!
Shallow embedding of the `gen` project scaffolder (src/main.rs, src/project.rs).

The program is a sequence of file-system operations gated by two small
enumerations (`Lang`, `ProjectKind`).  We embed it as pure Lean functions:

* the file system visible to the program is an environment `Env` mapping
  template-relative paths to optional contents, plus the outcomes of the four
  external tool invocations (clang-format, cargo, go, mvn) and the two
  pre-flight directory checks performed by `Project::new`;
* each `create_*` function of `project.rs` becomes a function returning
  `Except GenError (List Event)`, where the event list records, in order, the
  file-system mutations the program itself performs (external tools are
  opaque: only their captured outcome is visible, as in the source);
* `main.rs` becomes `runMain`, which reproduces the argument checks, the
  panics, the `process::exit(1)` calls of `Project::new`, and then the
  pipeline `Project::generate`.

`Except .ok` runs of the model correspond exactly to runs of the program in
which every file-system write succeeds; the failure points modelled are the
ones the claims are about (missing template files, missing domain file,
clang-format behaviour).  Generic I/O failures (a write failing for reasons
such as permissions) are not modelled; all claims about generated artifacts
are conditioned on a successful run.
-/

namespace Gen

/-- `ProjectKind` from project.rs. -/
inductive ProjectKind
  | Library
  | Executable
  deriving DecidableEq, Repr

/-- `Lang` from project.rs. -/
inductive Lang
  | Rust
  | C
  | Cpp
  | Go
  | Java
  deriving DecidableEq, Repr

/-- `ProjectKind::from_str` (project.rs lines 15-25).  The Rust code always
returns `Ok`, so the embedding is a total function: "bin", "binary", "exe",
"executable" map to Executable, "lib", "library" to Library, and every other
string falls to the catch-all arm, which is Executable. -/
def ProjectKind.fromStr (s : String) : ProjectKind :=
  if s = "bin" ∨ s = "binary" ∨ s = "exe" ∨ s = "executable" then ProjectKind.Executable
  else if s = "lib" ∨ s = "library" then ProjectKind.Library
  else ProjectKind.Executable

/-- The kind match in `main` (main.rs lines 34-38): `args.kind` is optional;
`None` and unrecognized strings both fall to the catch-all Executable arm. -/
def parseKindCli (s : Option String) : ProjectKind :=
  if s = some "bin" ∨ s = some "binary" ∨ s = some "exe" ∨ s = some "executable" then
    ProjectKind.Executable
  else if s = some "lib" ∨ s = some "library" then ProjectKind.Library
  else ProjectKind.Executable

/-- `Lang::from_str` (project.rs lines 36-49): recognizes "rust", "rs", "c",
"cpp", "c++", "cc", "java", and "go"; anything else is the
`Unknown language` error. -/
def Lang.fromStr (s : String) : Except String Lang :=
  if s = "rust" ∨ s = "rs" then Except.ok Lang.Rust
  else if s = "c" then Except.ok Lang.C
  else if s = "cpp" ∨ s = "c++" ∨ s = "cc" then Except.ok Lang.Cpp
  else if s = "java" then Except.ok Lang.Java
  else if s = "go" then Except.ok Lang.Go
  else Except.error ("Unknown language " ++ s)

/-- The language match in `main` (main.rs lines 22-28).  Unlike
`Lang::from_str` it has no "go" arm; `none` models the `panic!` of the
catch-all arm. -/
def parseLangCli (s : String) : Option Lang :=
  if s = "c" then some Lang.C
  else if s = "cpp" ∨ s = "c++" ∨ s = "cc" then some Lang.Cpp
  else if s = "java" then some Lang.Java
  else if s = "rust" ∨ s = "rs" then some Lang.Rust
  else none

/-- Outcome of spawning an external command with `Command::output()`:
either the process ran (captured stdout, stderr and an exit code) or the
launch itself failed (tool not present, for example). -/
inductive ToolOutcome
  | ran (stdout stderr : String) (exitCode : Nat)
  | launchFailed (msg : String)
  deriving DecidableEq, Repr

/-- The environment a run sees: the contents of the language's template
subtree (paths relative to `template_dir`), the outcomes of the external
tools, and the two pre-flight checks of `Project::new`. -/
structure Env where
  templates : String → Option String
  clangFormat : ToolOutcome
  cargo : ToolOutcome
  goTool : ToolOutcome
  mvn : ToolOutcome
  nameIsDir : Bool
  templateDirExists : Bool

def Env.withCargo (e : Env) (o : ToolOutcome) : Env :=
  ⟨e.templates, e.clangFormat, o, e.goTool, e.mvn, e.nameIsDir, e.templateDirExists⟩

def Env.withGoTool (e : Env) (o : ToolOutcome) : Env :=
  ⟨e.templates, e.clangFormat, e.cargo, o, e.mvn, e.nameIsDir, e.templateDirExists⟩

def Env.withMvn (e : Env) (o : ToolOutcome) : Env :=
  ⟨e.templates, e.clangFormat, e.cargo, e.goTool, o, e.nameIsDir, e.templateDirExists⟩

/-- One observable file-system action of the program.  Paths are the strings
the program builds (`<name>/...` for the project tree); `src` fields of
`copied` and `rendered` are template-relative source paths.  `checkedDir` is
a read-only existence probe; `toolRun` is the spawn of an external command;
`toolStdoutFile` is the file the spawned process's standard output was
redirected into. -/
inductive Event
  | checkedDir (path : String)
  | createdDir (path : String)
  | copied (src dst content : String)
  | rendered (src dst content : String)
  | createdEmpty (path : String)
  | toolRun (tool : String)
  | toolStdoutFile (path content : String)
  deriving DecidableEq, Repr

/-- Is the event a mutation of the file system (as opposed to a read-only
check or an opaque external-tool spawn)? -/
def Event.isWrite : Event → Bool
  | Event.checkedDir _ => false
  | Event.toolRun _ => false
  | _ => true

/-- A minimal file-system state: existing directories and file contents.
Used to state that a failed run leaves the file system unchanged. -/
structure FSState where
  dirs : List String
  files : List (String × String)
  deriving DecidableEq, Repr

def applyEvent (fs : FSState) : Event → FSState
  | Event.checkedDir _ => fs
  | Event.toolRun _ => fs
  | Event.createdDir d => ⟨d :: fs.dirs, fs.files⟩
  | Event.copied _ dst c => ⟨fs.dirs, (dst, c) :: fs.files⟩
  | Event.rendered _ dst c => ⟨fs.dirs, (dst, c) :: fs.files⟩
  | Event.createdEmpty dst => ⟨fs.dirs, (dst, "") :: fs.files⟩
  | Event.toolStdoutFile dst c => ⟨fs.dirs, (dst, c) :: fs.files⟩

def applyEvents (fs : FSState) (evs : List Event) : FSState :=
  evs.foldl applyEvent fs

/-- The error outcomes of the pipeline that the embedding distinguishes.
`couldNotFindDomainFile` is the literal `anyhow!("Could not find domain
file")` arm of `get_default_domain`; `domainFileRead` is the `?` on
`fs::read_to_string` of the domain file; `copyMissing` a failed `fs::copy`
from a missing template source; `templateMissing` a failed
`register_template_file`; `templateMalformed` a handlebars render error. -/
inductive GenError
  | couldNotFindDomainFile
  | domainFileRead
  | copyMissing (src : String)
  | templateMissing (src : String)
  | templateMalformed (src : String)
  | clangFormatEmptyStderr
  | clangFormatLaunch (msg : String)
  deriving DecidableEq, Repr

/-- The `Project` value after a successful `Project::new` (the two path
fields are determined by `name` and `lang`, so they are not repeated). -/
structure Project where
  name : String
  lang : Lang
  kind : ProjectKind
  domain : Option String
  deriving DecidableEq, Repr

/-- Serialized tag of a `Lang` value (serde serializes a unit enum variant
as its name). -/
def langTag : Lang → String
  | Lang.Rust => "Rust"
  | Lang.C => "C"
  | Lang.Cpp => "Cpp"
  | Lang.Go => "Go"
  | Lang.Java => "Java"

/-- Serialized tag of a `ProjectKind` value. -/
def kindTag : ProjectKind → String
  | ProjectKind.Library => "Library"
  | ProjectKind.Executable => "Executable"

/-- The rendering context: field lookup on the serialized `Project` (the
Rust code passes `&self` to `handlebars.render`).  A field handlebars cannot
resolve renders as the empty string (non-strict mode, the default). -/
def lookupField (p : Project) (f : String) : String :=
  if f = "name" then p.name
  else if f = "lang" then langTag p.lang
  else if f = "kind" then kindTag p.kind
  else if f = "domain" then p.domain.getD ""
  else ""

def obrace : Char := Char.ofNat 123
def cbrace : Char := Char.ofNat 125

inductive RMode
  | text
  | sawOpen
  | inVar
  | sawClose
  deriving DecidableEq, Repr

structure RSt where
  out : String
  varAcc : String
  mode : RMode

/-- One step of the substitution scanner modelling the third-party
handlebars renderer: a double open brace begins a variable reference, a
double close brace ends it and splices in the looked-up field; everything
else is copied verbatim. -/
def rstep (p : Project) (st : RSt) (c : Char) : RSt :=
  match st.mode with
  | RMode.text =>
      if c = obrace then ⟨st.out, st.varAcc, RMode.sawOpen⟩
      else ⟨st.out.push c, st.varAcc, RMode.text⟩
  | RMode.sawOpen =>
      if c = obrace then ⟨st.out, "", RMode.inVar⟩
      else ⟨(st.out.push obrace).push c, st.varAcc, RMode.text⟩
  | RMode.inVar =>
      if c = cbrace then ⟨st.out, st.varAcc, RMode.sawClose⟩
      else ⟨st.out, st.varAcc.push c, RMode.inVar⟩
  | RMode.sawClose =>
      if c = cbrace then ⟨st.out ++ lookupField p st.varAcc.trim, "", RMode.text⟩
      else ⟨st.out, (st.varAcc.push cbrace).push c, RMode.inVar⟩

/-- Model of the third-party handlebars logic-less renderer, as invoked by
`Project::template`: substitute each double-braced field reference using
`lookupField`, copy everything else; an unterminated variable reference at
end of input is a syntax error (`none`).  The renderer is a pure function of
the template text and the context. -/
def renderTemplate (tsrc : String) (p : Project) : Option String :=
  let fin := tsrc.data.foldl (rstep p) ⟨"", "", RMode.text⟩
  match fin.mode with
  | RMode.text => some fin.out
  | RMode.sawOpen => some (fin.out.push obrace)
  | _ => none

/-- Sequencing of two pipeline steps in the `?`-propagation style of
`anyhow::Result`: an error aborts, otherwise the second step runs. -/
def seqE {α β : Type} (a : Except GenError α) (f : α → Except GenError β) :
    Except GenError β :=
  match a with
  | Except.error e => Except.error e
  | Except.ok x => f x

/-- `fs::copy` of one template file into the project tree: fails when the
source does not exist, otherwise records a verbatim copy. -/
def copyOp (env : Env) (src dst : String) : Except GenError (List Event) :=
  match env.templates src with
  | none => Except.error (GenError.copyMissing src)
  | some c => Except.ok [Event.copied src dst c]

/-- `Project::template` (project.rs lines 179-192): register the template
file (fails when absent), render it against `&self`, write the result to
`to_path` (an unconditional overwrite). -/
def Project.templateOp (p : Project) (env : Env) (src dst : String) :
    Except GenError (List Event) :=
  match env.templates src with
  | none => Except.error (GenError.templateMissing src)
  | some t =>
      match renderTemplate t p with
      | none => Except.error (GenError.templateMalformed src)
      | some content => Except.ok [Event.rendered src dst content]

/-- `Project::get_default_domain` (project.rs lines 124-144): an explicit
domain is returned as-is; otherwise, for Go and Java the per-language
`domain` file is read and trimmed (a missing file makes `read_to_string`
fail), and for every other language the computed file name is empty, which
is the `Could not find domain file` error. -/
def Project.getDefaultDomain (p : Project) (env : Env) :
    Except GenError String :=
  match p.domain with
  | some d => Except.ok d
  | none =>
      match p.lang with
      | Lang.Go | Lang.Java =>
          match env.templates "domain" with
          | some content => Except.ok content.trim
          | none => Except.error GenError.domainFileRead
      | _ => Except.error GenError.couldNotFindDomainFile

/-- `Project::create_dir` (project.rs lines 146-177): create the project
root, and for every language except Go also `src` under it.  In the model
both creations succeed (the root was checked fresh in `Project::new`). -/
def Project.createDirOp (p : Project) : List Event :=
  Event.createdDir p.name ::
    (if p.lang = Lang.Go then [] else [Event.createdDir (p.name ++ "/src")])

/-- `Project::create_clang_format` (project.rs lines 224-253): spawn
clang-format with stdout redirected into `<name>/.clang-format`; a launch
failure is returned as an error (propagated, unlike the other tools); when
the process ran, an EMPTY captured stderr is the error case and a non-empty
stderr the success case (the exit code is never examined). -/
def Project.createClangFormatOp (p : Project) (env : Env) :
    Except GenError (List Event) :=
  match env.clangFormat with
  | ToolOutcome.ran out err _code =>
      if err = "" then Except.error GenError.clangFormatEmptyStderr
      else
        Except.ok [Event.toolRun "clang-format",
                   Event.toolStdoutFile (p.name ++ "/.clang-format") out]
  | ToolOutcome.launchFailed m => Except.error (GenError.clangFormatLaunch m)

/-- `Project::create_c_project` (project.rs lines 255-272): clang-format
first (its error propagates), then for Executable copy `src/main.c` into the
project verbatim; Library copies nothing. -/
def Project.createCProjectOp (p : Project) (env : Env) :
    Except GenError (List Event) :=
  seqE (p.createClangFormatOp env) (fun cf =>
    if p.kind = ProjectKind.Executable then
      seqE (copyOp env "src/main.c" (p.name ++ "/src/main.c")) (fun m =>
        Except.ok (cf ++ m))
    else Except.ok cf)

/-- `Project::create_cpp_project` (project.rs lines 274-288): clang-format
first, then for Executable render `src/main.cpp` through the template
engine; Library renders nothing. -/
def Project.createCppProjectOp (p : Project) (env : Env) :
    Except GenError (List Event) :=
  seqE (p.createClangFormatOp env) (fun cf =>
    if p.kind = ProjectKind.Executable then
      seqE (p.templateOp env "src/main.cpp" (p.name ++ "/src/main.cpp")) (fun m =>
        Except.ok (cf ++ m))
    else Except.ok cf)

/-- `Project::create_go_project` (project.rs lines 290-332): resolve the
domain (explicit value, else `get_default_domain`, whose failure
propagates), run `go mod init` fail-soft (both the `Ok` and `Err` arms only
print), then for Executable render `main.go` at the project root. -/
def Project.createGoProjectOp (p : Project) (env : Env) :
    Except GenError (List Event) :=
  seqE (p.getDefaultDomain env) (fun _domain =>
    if p.kind = ProjectKind.Executable then
      seqE (p.templateOp env "main.go" (p.name ++ "/main.go")) (fun m =>
        Except.ok (Event.toolRun "go" :: m))
    else Except.ok [Event.toolRun "go"])

/-- `Project::create_java_project` (project.rs lines 334-374): resolve the
domain (failure propagates), run the maven archetype generator fail-soft,
then render `manifest.txt` always, regardless of kind. -/
def Project.createJavaProjectOp (p : Project) (env : Env) :
    Except GenError (List Event) :=
  seqE (p.getDefaultDomain env) (fun _domain =>
    seqE (p.templateOp env "manifest.txt" (p.name ++ "/manifest.txt")) (fun m =>
      Except.ok (Event.toolRun "mvn" :: m)))

/-- `Project::create_rust_project` (project.rs lines 376-417): run
`cargo new <name>` with the `--lib` or `--bin` flag fail-soft, then for Executable copy
`src/main.rs` over the generated default, then unconditionally create an
empty `src/lib.rs`. -/
def Project.createRustProjectOp (p : Project) (env : Env) :
    Except GenError (List Event) :=
  if p.kind = ProjectKind.Executable then
    seqE (copyOp env "src/main.rs" (p.name ++ "/src/main.rs")) (fun m =>
      Except.ok (Event.toolRun "cargo" :: m ++
        [Event.createdEmpty (p.name ++ "/src/lib.rs")]))
  else
    Except.ok [Event.toolRun "cargo", Event.createdEmpty (p.name ++ "/src/lib.rs")]

/-- `Project::create_gitignore` (project.rs lines 211-222): verbatim copy of
the template `.gitignore` to the project root. -/
def Project.createGitignoreOp (p : Project) (env : Env) :
    Except GenError (List Event) :=
  copyOp env ".gitignore" (p.name ++ "/.gitignore")

/-- The build-file template selected by `create_makefile`:
`Makefile.lib` for Library, `Makefile.bin` for Executable. -/
def makefileTemplateName : ProjectKind → String
  | ProjectKind.Library => "Makefile.lib"
  | ProjectKind.Executable => "Makefile.bin"

/-- `Project::create_makefile` (project.rs lines 194-209): render the
kind-selected Makefile template to `<name>/Makefile`. -/
def Project.createMakefileOp (p : Project) (env : Env) :
    Except GenError (List Event) :=
  p.templateOp env (makefileTemplateName p.kind) (p.name ++ "/Makefile")

/-- `Project::generate` (project.rs lines 419-444): the per-language branch
(C, C++ and Go create the directory layout first; Java and Rust do not),
then the common tail: `.gitignore` copy and Makefile render, in that
order. -/
def Project.generateOp (p : Project) (env : Env) :
    Except GenError (List Event) :=
  seqE
    (match p.lang with
     | Lang.C => seqE (p.createCProjectOp env) (fun e => Except.ok (p.createDirOp ++ e))
     | Lang.Cpp => seqE (p.createCppProjectOp env) (fun e => Except.ok (p.createDirOp ++ e))
     | Lang.Java => p.createJavaProjectOp env
     | Lang.Rust => p.createRustProjectOp env
     | Lang.Go => seqE (p.createGoProjectOp env) (fun e => Except.ok (p.createDirOp ++ e)))
    (fun langEvs =>
      seqE (p.createGitignoreOp env) (fun g =>
        seqE (p.createMakefileOp env) (fun m =>
          Except.ok (langEvs ++ g ++ m))))

/-- The outcome of one whole process invocation of `main`. -/
inductive Outcome
  | panicked (msg : String)
  | exitedEarly (evs : List Event)
  | completed (r : Except GenError Unit) (evs : List Event)
  deriving Repr

/-- The file-system events an outcome performed (a panic in `main` happens
before any file-system access; an error during `generate` is reported here
with the pre-flight checks only, partial traces of failed pipelines are not
tracked by the model). -/
def outcomeEvents : Outcome → List Event
  | Outcome.panicked _ => []
  | Outcome.exitedEarly evs => evs
  | Outcome.completed _ evs => evs

/-- `main` (main.rs lines 17-43) composed with `Project::new` (project.rs
lines 62-110): parse the language (panic on an unrecognized string), panic
when the language is Java and no `--domain` was given, parse the kind, then
`Project::new` checks that the target is not an existing directory and that
the template subtree exists (each failing check is `process::exit(1)`), and
finally `Project::generate` runs. -/
def runMain (nameArg langArg : String) (kindArg domainArg : Option String)
    (env : Env) : Outcome :=
  match parseLangCli langArg with
  | none => Outcome.panicked "Invalid language"
  | some lang =>
      if lang = Lang.Java ∧ domainArg = none then
        Outcome.panicked "Java project requires domain name"
      else
        let kind := parseKindCli kindArg
        if env.nameIsDir then Outcome.exitedEarly [Event.checkedDir nameArg]
        else if env.templateDirExists = false then
          Outcome.exitedEarly [Event.checkedDir nameArg, Event.checkedDir "template_dir"]
        else
          let p : Project := ⟨nameArg, lang, kind, domainArg⟩
          match p.generateOp env with
          | Except.ok evs =>
              Outcome.completed (Except.ok ())
                (Event.checkedDir nameArg :: Event.checkedDir "template_dir" :: evs)
          | Except.error e =>
              Outcome.completed (Except.error e)
                [Event.checkedDir nameArg, Event.checkedDir "template_dir"]

/-- Entry-point stub events: the artifacts copied or rendered from the
per-language entry-point templates (`src/main.c`, `src/main.cpp`,
`src/main.rs`, `main.go`).  The empty `src/lib.rs` created for Rust is a
library-entry file, not an entry point, and `manifest.txt`, `Makefile`,
`.gitignore` and `.clang-format` are not source files. -/
def Event.isEntryPoint : Event → Bool
  | Event.copied src _ _ => src = "src/main.c" ∨ src = "src/main.rs"
  | Event.rendered src _ _ => src = "src/main.cpp" ∨ src = "main.go"
  | _ => false

/-- Number of entry-point source files a trace creates. -/
def countEntryPoints : List Event → Nat
  | [] => 0
  | e :: rest => (if e.isEntryPoint then 1 else 0) + countEntryPoints rest

/-- Is the error one of the two domain-resolution failures? -/
def GenError.isDomainErr : GenError → Bool
  | GenError.couldNotFindDomainFile => true
  | GenError.domainFileRead => true
  | _ => false

/-- The rendered bytes of a single template/copy step, when it succeeded
with a single write. -/
def writtenContent : Except GenError (List Event) → Option String
  | Except.ok [Event.rendered _ _ c] => some c
  | _ => none

/-- A fully stocked template subtree: every artifact the five languages can
ask for is present (with empty contents, which render to empty output). -/
def fullTemplates : String → Option String := fun s =>
  if s = ".gitignore" ∨ s = "Makefile.bin" ∨ s = "Makefile.lib" ∨ s = "src/main.c"
      ∨ s = "src/main.cpp" ∨ s = "src/main.rs" ∨ s = "main.go" ∨ s = "manifest.txt"
      ∨ s = "domain" then some "" else none

/-- A benign environment: all templates present, all tools run successfully
(clang-format with a non-empty stderr, which is its success case), target
fresh, template directory present. -/
def envFull : Env :=
  ⟨fullTemplates, ToolOutcome.ran "cfg" "note" 0, ToolOutcome.ran "" "" 0,
   ToolOutcome.ran "" "" 0, ToolOutcome.ran "" "" 0, false, true⟩

/-- Like `envFull` but the target name already exists as a directory. -/
def envBusy : Env :=
  ⟨fullTemplates, ToolOutcome.ran "cfg" "note" 0, ToolOutcome.ran "" "" 0,
   ToolOutcome.ran "" "" 0, ToolOutcome.ran "" "" 0, true, true⟩

/-- Like `envFull` but the clang-format executable cannot be launched. -/
def envNoClang : Env :=
  ⟨fullTemplates, ToolOutcome.launchFailed "clang-format not found",
   ToolOutcome.ran "" "" 0, ToolOutcome.ran "" "" 0, ToolOutcome.ran "" "" 0,
   false, true⟩

end Gen

namespace Gen

theorem seqE_ok_iff {α β : Type} {a : Except GenError α} {f : α → Except GenError β}
    {b : β} : seqE a f = Except.ok b ↔ ∃ x, a = Except.ok x ∧ f x = Except.ok b := by
  cases a <;> simp [seqE]

theorem seqE_error_iff {α β : Type} {a : Except GenError α} {f : α → Except GenError β}
    {e : GenError} : seqE a f = Except.error e ↔
      a = Except.error e ∨ ∃ x, a = Except.ok x ∧ f x = Except.error e := by
  cases a <;> simp [seqE]

theorem copyOp_ok {env : Env} {src dst : String} {evs : List Event}
    (h : copyOp env src dst = Except.ok evs) :
    ∃ c, env.templates src = some c ∧ evs = [Event.copied src dst c] := by
  unfold copyOp at h
  split at h
  · simp at h
  · rename_i c hc
    exact ⟨c, hc, by injection h with h2; exact h2.symm⟩

theorem copyOp_error {env : Env} {src dst : String} {e : GenError}
    (h : copyOp env src dst = Except.error e) : e = GenError.copyMissing src := by
  unfold copyOp at h
  split at h
  · injection h with h2; exact h2.symm
  · simp at h

theorem templateOp_ok {p : Project} {env : Env} {src dst : String} {evs : List Event}
    (h : p.templateOp env src dst = Except.ok evs) :
    ∃ t c, env.templates src = some t ∧ renderTemplate t p = some c
      ∧ evs = [Event.rendered src dst c] := by
  unfold Project.templateOp at h
  split at h
  · simp at h
  · rename_i t ht
    split at h
    · simp at h
    · rename_i c hc
      exact ⟨t, c, ht, hc, by injection h with h2; exact h2.symm⟩

theorem templateOp_error {p : Project} {env : Env} {src dst : String} {e : GenError}
    (h : p.templateOp env src dst = Except.error e) :
    e = GenError.templateMissing src ∨ e = GenError.templateMalformed src := by
  unfold Project.templateOp at h
  split at h
  · exact Or.inl (by injection h with h2; exact h2.symm)
  · split at h
    · exact Or.inr (by injection h with h2; exact h2.symm)
    · simp at h

theorem clangFormatOp_ok {p : Project} {env : Env} {evs : List Event}
    (h : p.createClangFormatOp env = Except.ok evs) :
    ∃ out, evs = [Event.toolRun "clang-format",
                  Event.toolStdoutFile (p.name ++ "/.clang-format") out] := by
  unfold Project.createClangFormatOp at h
  split at h
  · rename_i out err code heq
    split at h
    · simp at h
    · exact ⟨out, by injection h with h2; exact h2.symm⟩
  · simp at h

theorem clangFormatOp_error {p : Project} {env : Env} {e : GenError}
    (h : p.createClangFormatOp env = Except.error e) :
    e = GenError.clangFormatEmptyStderr ∨ ∃ m, e = GenError.clangFormatLaunch m := by
  unfold Project.createClangFormatOp at h
  split at h
  · rename_i out err code heq
    split at h
    · exact Or.inl (by injection h with h2; exact h2.symm)
    · simp at h
  · rename_i m hm
    exact Or.inr ⟨m, by injection h with h2; exact h2.symm⟩

theorem countEntryPoints_append (a b : List Event) :
    countEntryPoints (a ++ b) = countEntryPoints a + countEntryPoints b := by
  induction a with
  | nil => simp [countEntryPoints]
  | cons e rest ih => simp [countEntryPoints, ih, Nat.add_assoc]

theorem countEntryPoints_createDirOp (p : Project) :
    countEntryPoints p.createDirOp = 0 := by
  unfold Project.createDirOp
  by_cases h : p.lang = Lang.Go <;> simp [h, countEntryPoints, Event.isEntryPoint]

end Gen

namespace Gen

/-- C6: `parse_kind` is total: for every input string other than the
recognized synonyms for Library ("lib", "library") and for an absent input,
it returns Executable and never fails; the recognized Library synonyms
return Library.  Both the CLI match of `main` and `ProjectKind::from_str`
behave this way. -/
theorem C6_parse_kind_total :
    (∀ s : Option String, s ≠ some "lib" → s ≠ some "library" →
        parseKindCli s = ProjectKind.Executable)
    ∧ parseKindCli none = ProjectKind.Executable
    ∧ parseKindCli (some "lib") = ProjectKind.Library
    ∧ parseKindCli (some "library") = ProjectKind.Library
    ∧ (∀ s : String, s ≠ "lib" → s ≠ "library" →
        ProjectKind.fromStr s = ProjectKind.Executable)
    ∧ ProjectKind.fromStr "lib" = ProjectKind.Library
    ∧ ProjectKind.fromStr "library" = ProjectKind.Library := by
  refine ⟨?_, by decide, by decide, by decide, ?_, by decide, by decide⟩
  · intro s h1 h2
    unfold parseKindCli
    by_cases hb : s = some "bin" ∨ s = some "binary" ∨ s = some "exe" ∨ s = some "executable"
    · simp [hb]
    · simp [hb, h1, h2]
  · intro s h1 h2
    unfold ProjectKind.fromStr
    by_cases hb : s = "bin" ∨ s = "binary" ∨ s = "exe" ∨ s = "executable"
    · simp [hb]
    · simp [hb, h1, h2]

/-- C6 witness: a concrete unrecognized kind string maps to Executable. -/
theorem C6_parse_kind_total_witness :
    parseKindCli (some "shared-object") = ProjectKind.Executable
    ∧ ProjectKind.fromStr "weird" = ProjectKind.Executable :=
  ⟨C6_parse_kind_total.1 (some "shared-object") (by decide) (by decide),
   C6_parse_kind_total.2.2.2.2.1 "weird" (by decide) (by decide)⟩

/-- C7: rendering is deterministic and idempotent in content: two
invocations of `Project::template` given the same template bytes and the
same context produce byte-identical output, namely the pure function
`renderTemplate` of those two inputs, regardless of the rest of the
environment and of the destinations (in particular, of anything previously
written at the destination). -/
theorem C7_render_deterministic (p : Project) (env1 env2 : Env)
    (src1 src2 dst1 dst2 t : String)
    (h1 : env1.templates src1 = some t) (h2 : env2.templates src2 = some t) :
    writtenContent (p.templateOp env1 src1 dst1)
      = writtenContent (p.templateOp env2 src2 dst2)
    ∧ writtenContent (p.templateOp env1 src1 dst1) = renderTemplate t p := by
  unfold Project.templateOp
  rw [h1, h2]
  cases hr : renderTemplate t p <;> simp [writtenContent, hr]

/-- C7 witness: rendering a concrete template twice from two different
environments yields the same bytes. -/
theorem C7_render_deterministic_witness :
    writtenContent (Project.templateOp ⟨"demo", Lang.C, ProjectKind.Executable, none⟩
        envFull "Makefile.bin" "demo/Makefile")
      = writtenContent (Project.templateOp ⟨"demo", Lang.C, ProjectKind.Executable, none⟩
        envBusy "Makefile.bin" "other/Makefile") :=
  (C7_render_deterministic ⟨"demo", Lang.C, ProjectKind.Executable, none⟩
    envFull envBusy "Makefile.bin" "Makefile.bin" "demo/Makefile" "other/Makefile" ""
    rfl rfl).1

end Gen

namespace Gen

/-- C8: for every invocation with language Java and no explicit domain
value, `main` panics before a `Project` is constructed and before any
file-system read or write (the outcome carries an empty event trace), even
when a default-domain marker file exists in the template subtree (the
environment is arbitrary, so in particular one with a `domain` file); the
default-domain fallback of `get_default_domain` is therefore unreachable
for Java through the CLI. -/
theorem C8_java_without_domain_panics (nameArg langArg : String)
    (kindArg : Option String) (env : Env)
    (hlang : parseLangCli langArg = some Lang.Java) :
    runMain nameArg langArg kindArg none env
      = Outcome.panicked "Java project requires domain name"
    ∧ outcomeEvents (runMain nameArg langArg kindArg none env) = [] := by
  unfold runMain
  rw [hlang]
  simp [outcomeEvents]

/-- C8 witness: the concrete invocation `gen demo java` with no domain, in
an environment whose template subtree does contain a `domain` file. -/
theorem C8_java_without_domain_panics_witness :
    runMain "demo" "java" none none envFull
      = Outcome.panicked "Java project requires domain name"
    ∧ outcomeEvents (runMain "demo" "java" none none envFull) = [] :=
  C8_java_without_domain_panics "demo" "java" none envFull rfl

/-- C9: `create_clang_format` returns an error exactly when the launched
clang-format process's captured stderr is empty (the exit code is never
examined), it succeeds with the `.clang-format` write when stderr is
non-empty, and through the `?` propagation in `create_c_project` and
`create_cpp_project` the whole C or C++ pipeline aborts with that error
whenever clang-format runs and writes nothing to stderr. -/
theorem C9_clang_format_stderr_behavior (p : Project) (env : Env)
    (out err : String) (code : Nat)
    (h : env.clangFormat = ToolOutcome.ran out err code) :
    ((∃ e, p.createClangFormatOp env = Except.error e) ↔ err = "")
    ∧ (err = "" →
        p.createClangFormatOp env = Except.error GenError.clangFormatEmptyStderr)
    ∧ (err ≠ "" → p.createClangFormatOp env
        = Except.ok [Event.toolRun "clang-format",
                     Event.toolStdoutFile (p.name ++ "/.clang-format") out])
    ∧ (err = "" → p.lang = Lang.C →
        p.generateOp env = Except.error GenError.clangFormatEmptyStderr)
    ∧ (err = "" → p.lang = Lang.Cpp →
        p.generateOp env = Except.error GenError.clangFormatEmptyStderr) := by
  by_cases he : err = ""
  · have hclang : p.createClangFormatOp env
        = Except.error GenError.clangFormatEmptyStderr := by
      unfold Project.createClangFormatOp
      rw [h]
      simp [he]
    refine ⟨⟨fun _ => he, fun _ => ⟨_, hclang⟩⟩, fun _ => hclang, fun hne => absurd he hne,
      fun _ hl => ?_, fun _ hl => ?_⟩
    · unfold Project.generateOp
      simp [hl, Project.createCProjectOp, hclang, seqE]
    · unfold Project.generateOp
      simp [hl, Project.createCppProjectOp, hclang, seqE]
  · have hclang : p.createClangFormatOp env
        = Except.ok [Event.toolRun "clang-format",
                     Event.toolStdoutFile (p.name ++ "/.clang-format") out] := by
      unfold Project.createClangFormatOp
      rw [h]
      simp [he]
    refine ⟨⟨fun hex => ?_, fun hcon => absurd hcon he⟩, fun hcon => absurd hcon he,
      fun _ => hclang, fun hcon => absurd hcon he, fun hcon => absurd hcon he⟩
    rcases hex with ⟨e, hee⟩
    rw [hclang] at hee
    exact absurd hee (by simp)

/-- C9 witness: with a concrete run whose stderr is empty, C generation
aborts with the clang-format error; with non-empty stderr the op succeeds. -/
theorem C9_clang_format_stderr_behavior_witness :
    Project.generateOp ⟨"demo", Lang.C, ProjectKind.Executable, none⟩
        ⟨fullTemplates, ToolOutcome.ran "cfg" "" 0, ToolOutcome.ran "" "" 0,
         ToolOutcome.ran "" "" 0, ToolOutcome.ran "" "" 0, false, true⟩
      = Except.error GenError.clangFormatEmptyStderr
    ∧ Project.createClangFormatOp ⟨"demo", Lang.C, ProjectKind.Executable, none⟩ envFull
      = Except.ok [Event.toolRun "clang-format",
                   Event.toolStdoutFile "demo/.clang-format" "cfg"] :=
  ⟨(C9_clang_format_stderr_behavior ⟨"demo", Lang.C, ProjectKind.Executable, none⟩
      ⟨fullTemplates, ToolOutcome.ran "cfg" "" 0, ToolOutcome.ran "" "" 0,
       ToolOutcome.ran "" "" 0, ToolOutcome.ran "" "" 0, false, true⟩
      "cfg" "" 0 rfl).2.2.2.1 rfl rfl,
   (C9_clang_format_stderr_behavior ⟨"demo", Lang.C, ProjectKind.Executable, none⟩
      envFull "cfg" "note" 0 rfl).2.2.1 (by decide)⟩

end Gen

namespace Gen

/-- C10: the CLI language match accepts exactly "c", "cpp", "c++", "cc",
"java", "rust" and "rs", rejecting every other input including "go" (the
`none` outcome is the panic arm), even though `Lang::from_str` accepts "go"
and a complete Go pipeline exists and succeeds through the library API
(`Project::generate` on a Go project); so no CLI invocation ever reaches a
Go project. -/
theorem C10_go_unreachable_from_cli :
    (∀ s : String, (parseLangCli s).isSome = true ↔
        (s = "c" ∨ s = "cpp" ∨ s = "c++" ∨ s = "cc" ∨ s = "java" ∨ s = "rust" ∨ s = "rs"))
    ∧ parseLangCli "go" = none
    ∧ Lang.fromStr "go" = Except.ok Lang.Go
    ∧ (∀ (s : String) (l : Lang), parseLangCli s = some l → l ≠ Lang.Go)
    ∧ Project.generateOp ⟨"demo", Lang.Go, ProjectKind.Executable, some "acme.dev"⟩ envFull
      = Except.ok [Event.createdDir "demo", Event.toolRun "go",
                   Event.rendered "main.go" "demo/main.go" "",
                   Event.copied ".gitignore" "demo/.gitignore" "",
                   Event.rendered "Makefile.bin" "demo/Makefile" ""] := by
  refine ⟨?_, by decide, rfl, ?_, rfl⟩
  · intro s
    unfold parseLangCli
    by_cases h1 : s = "c" <;> by_cases h2 : s = "cpp" ∨ s = "c++" ∨ s = "cc" <;>
      by_cases h3 : s = "java" <;> by_cases h4 : s = "rust" ∨ s = "rs" <;>
      simp [h1, h2, h3, h4]
  · intro s l h
    unfold parseLangCli at h
    split at h
    · injection h with h2; subst h2; decide
    · split at h
      · injection h with h2; subst h2; decide
      · split at h
        · injection h with h2; subst h2; decide
        · split at h
          · injection h with h2; subst h2; decide
          · simp at h

/-- C10 witness: "c" is accepted (and maps to a non-Go language), "go" is
rejected by the CLI. -/
theorem C10_go_unreachable_from_cli_witness :
    ((parseLangCli "cc").isSome = true) ∧ Lang.Cpp ≠ Lang.Go :=
  ⟨(C10_go_unreachable_from_cli.1 "cc").mpr (by tauto),
   C10_go_unreachable_from_cli.2.2.2.1 "cc" Lang.Cpp (by decide)⟩

/-- C1: when the target name already exists as a directory, the run never
completes a generation (it stops at the `Project::new` check with
`process::exit(1)`, or panics even earlier on argument errors), and its
event trace leaves any file-system state unchanged: nothing is written, so
the pre-existing directory's contents are untouched. -/
theorem C1_existing_dir_aborts_unchanged (nameArg langArg : String)
    (kindArg domainArg : Option String) (env : Env) (fs : FSState)
    (hdir : env.nameIsDir = true) :
    (∀ (r : Except GenError Unit) (evs : List Event),
        runMain nameArg langArg kindArg domainArg env ≠ Outcome.completed r evs)
    ∧ applyEvents fs (outcomeEvents (runMain nameArg langArg kindArg domainArg env))
        = fs := by
  unfold runMain
  cases hl : parseLangCli langArg with
  | none =>
      exact ⟨fun r evs => by simp, by simp [outcomeEvents, applyEvents]⟩
  | some lang =>
      by_cases hj : lang = Lang.Java ∧ domainArg = none
      · simp only [if_pos hj]
        exact ⟨fun r evs => by simp, by simp [outcomeEvents, applyEvents]⟩
      · simp only [if_neg hj, hdir, if_pos]
        exact ⟨fun r evs => by simp, by
          simp [outcomeEvents, applyEvents, applyEvent]⟩

/-- C1 witness: a concrete invocation against an occupied target name: the
pre-existing directory's file survives untouched and no completion
happens. -/
theorem C1_existing_dir_aborts_unchanged_witness :
    (runMain "demo" "c" none none envBusy
      ≠ Outcome.completed (Except.ok ()) [])
    ∧ applyEvents ⟨["demo"], [("demo/precious.txt", "keep me")]⟩
        (outcomeEvents (runMain "demo" "c" none none envBusy))
      = ⟨["demo"], [("demo/precious.txt", "keep me")]⟩ :=
  ⟨(C1_existing_dir_aborts_unchanged "demo" "c" none none envBusy
      ⟨["demo"], [("demo/precious.txt", "keep me")]⟩ rfl).1 (Except.ok ()) [],
   (C1_existing_dir_aborts_unchanged "demo" "c" none none envBusy
      ⟨["demo"], [("demo/precious.txt", "keep me")]⟩ rfl).2⟩

end Gen

namespace Gen

/-- C3: domain resolution: an explicit domain always wins (whatever the
template subtree holds); for the domain-requiring languages Java and Go an
absent explicit domain falls back to the trimmed contents of the
per-language `domain` file; when both are absent the resolution fails with
the domain-read error; and no pipeline of a non-domain-requiring language
(C, C++, Rust) can ever fail with a domain-resolution error, because only
the Java and Go pipelines resolve domains. -/
theorem C3_domain_resolution_precedence :
    (∀ (p : Project) (env : Env) (d : String), p.domain = some d →
        p.getDefaultDomain env = Except.ok d)
    ∧ (∀ (p : Project) (env : Env) (s : String), p.domain = none →
        (p.lang = Lang.Java ∨ p.lang = Lang.Go) → env.templates "domain" = some s →
        p.getDefaultDomain env = Except.ok s.trim)
    ∧ (∀ (p : Project) (env : Env), p.domain = none →
        (p.lang = Lang.Java ∨ p.lang = Lang.Go) → env.templates "domain" = none →
        p.getDefaultDomain env = Except.error GenError.domainFileRead)
    ∧ (∀ (p : Project) (env : Env) (e : GenError),
        (p.lang = Lang.C ∨ p.lang = Lang.Cpp ∨ p.lang = Lang.Rust) →
        p.generateOp env = Except.error e → e.isDomainErr = false) := by
  refine ⟨?_, ?_, ?_, ?_⟩
  · intro p env d hd
    unfold Project.getDefaultDomain
    rw [hd]
  · intro p env s hd hl hf
    unfold Project.getDefaultDomain
    rw [hd]
    rcases hl with hl | hl <;> rw [hl] <;> rw [hf]
  · intro p env hd hl hf
    unfold Project.getDefaultDomain
    rw [hd]
    rcases hl with hl | hl <;> rw [hl] <;> rw [hf]
  · intro p env e hl h
    unfold Project.generateOp at h
    rcases (seqE_error_iff.mp h) with h1 | ⟨le, hle, h2⟩
    · rcases hl with hc | hc | hc <;> rw [hc] at h1
      · rcases (seqE_error_iff.mp h1) with h3 | ⟨x, hx, h4⟩
        · unfold Project.createCProjectOp at h3
          rcases (seqE_error_iff.mp h3) with h5 | ⟨y, hy, h6⟩
          · rcases clangFormatOp_error h5 with h7 | ⟨m, h7⟩ <;> subst h7 <;> rfl
          · by_cases hk : p.kind = ProjectKind.Executable
            · rw [if_pos hk] at h6
              rcases (seqE_error_iff.mp h6) with h7 | ⟨z, hz, h8⟩
              · rw [copyOp_error h7]; rfl
              · simp at h8
            · rw [if_neg hk] at h6
              simp at h6
        · simp at h4
      · rcases (seqE_error_iff.mp h1) with h3 | ⟨x, hx, h4⟩
        · unfold Project.createCppProjectOp at h3
          rcases (seqE_error_iff.mp h3) with h5 | ⟨y, hy, h6⟩
          · rcases clangFormatOp_error h5 with h7 | ⟨m, h7⟩ <;> subst h7 <;> rfl
          · by_cases hk : p.kind = ProjectKind.Executable
            · rw [if_pos hk] at h6
              rcases (seqE_error_iff.mp h6) with h7 | ⟨z, hz, h8⟩
              · rcases templateOp_error h7 with h9 | h9 <;> subst h9 <;> rfl
              · simp at h8
            · rw [if_neg hk] at h6
              simp at h6
        · simp at h4
      · unfold Project.createRustProjectOp at h1
        by_cases hk : p.kind = ProjectKind.Executable
        · rw [if_pos hk] at h1
          rcases (seqE_error_iff.mp h1) with h3 | ⟨x, hx, h4⟩
          · rw [copyOp_error h3]; rfl
          · simp at h4
        · rw [if_neg hk] at h1
          simp at h1
    · rcases (seqE_error_iff.mp h2) with h3 | ⟨g, hg, h4⟩
      · rw [copyOp_error h3]; rfl
      · rcases (seqE_error_iff.mp h4) with h5 | ⟨m, hm, h6⟩
        · rcases templateOp_error h5 with h7 | h7 <;> subst h7 <;> rfl
        · simp at h6

/-- C3 witness: precedence at concrete inputs: an explicit domain wins over
the present default file; the default file is used when no explicit domain
is given; a Java pipeline with neither fails with the domain-read error. -/
theorem C3_domain_resolution_precedence_witness :
    Project.getDefaultDomain ⟨"demo", Lang.Java, ProjectKind.Executable, some "com.acme"⟩ envFull
      = Except.ok "com.acme"
    ∧ Project.getDefaultDomain ⟨"demo", Lang.Java, ProjectKind.Executable, none⟩ envFull
      = Except.ok ("".trim)
    ∧ Project.getDefaultDomain ⟨"demo", Lang.Go, ProjectKind.Executable, none⟩
        ⟨fun _ => none, ToolOutcome.ran "" "x" 0, ToolOutcome.ran "" "" 0,
         ToolOutcome.ran "" "" 0, ToolOutcome.ran "" "" 0, false, true⟩
      = Except.error GenError.domainFileRead :=
  ⟨C3_domain_resolution_precedence.1 ⟨"demo", Lang.Java, ProjectKind.Executable, some "com.acme"⟩
      envFull "com.acme" rfl,
   C3_domain_resolution_precedence.2.1 ⟨"demo", Lang.Java, ProjectKind.Executable, none⟩
      envFull "" rfl (Or.inl rfl) rfl,
   C3_domain_resolution_precedence.2.2.1 ⟨"demo", Lang.Go, ProjectKind.Executable, none⟩
      ⟨fun _ => none, ToolOutcome.ran "" "x" 0, ToolOutcome.ran "" "" 0,
       ToolOutcome.ran "" "" 0, ToolOutcome.ran "" "" 0, false, true⟩
      rfl (Or.inr rfl) rfl⟩

end Gen

namespace Gen

theorem generateOp_toolFieldsIrrelevant (p : Project) (t : String → Option String)
    (cf ca1 ca2 g1 g2 m1 m2 : ToolOutcome) (n1 n2 d1 d2 : Bool) :
    p.generateOp ⟨t, cf, ca1, g1, m1, n1, d1⟩
      = p.generateOp ⟨t, cf, ca2, g2, m2, n2, d2⟩ := by
  cases p with
  | mk name lang kind domain => cases lang <;> rfl

/-- C4 counterexample: the claim includes clang-format among the external
invocations whose launch failure is "logged but not propagated".  At this
concrete input (a C executable project, clang-format absent), the launch
failure IS propagated: the pipeline returns the error instead of proceeding
to materialize the template artifacts. -/
theorem C4_counterexample_clang_launch_propagates :
    Project.generateOp ⟨"demo", Lang.C, ProjectKind.Executable, none⟩ envNoClang
      = Except.error (GenError.clangFormatLaunch "clang-format not found") := rfl

/-- C4 amended: for cargo new, go mod init and mvn archetype:generate, the
tool's outcome (exit status, output, or launch failure) never changes the
pipeline's result — the whole generation is literally invariant in those
three environment fields.  clang-format is the exception: its launch
failure is propagated and aborts C and C++ generation. -/
theorem C4_amended_fail_soft_except_clang_format :
    (∀ (p : Project) (env : Env) (o : ToolOutcome),
        p.generateOp (env.withCargo o) = p.generateOp env)
    ∧ (∀ (p : Project) (env : Env) (o : ToolOutcome),
        p.generateOp (env.withGoTool o) = p.generateOp env)
    ∧ (∀ (p : Project) (env : Env) (o : ToolOutcome),
        p.generateOp (env.withMvn o) = p.generateOp env)
    ∧ (∀ (p : Project) (env : Env) (m : String),
        env.clangFormat = ToolOutcome.launchFailed m →
        (p.lang = Lang.C ∨ p.lang = Lang.Cpp) →
        p.generateOp env = Except.error (GenError.clangFormatLaunch m)) := by
  refine ⟨?_, ?_, ?_, ?_⟩
  · intro p env o
    cases env
    exact generateOp_toolFieldsIrrelevant p _ _ _ _ _ _ _ _ _ _ _ _
  · intro p env o
    cases env
    exact generateOp_toolFieldsIrrelevant p _ _ _ _ _ _ _ _ _ _ _ _
  · intro p env o
    cases env
    exact generateOp_toolFieldsIrrelevant p _ _ _ _ _ _ _ _ _ _ _ _
  · intro p env m h hl
    have hclang : p.createClangFormatOp env
        = Except.error (GenError.clangFormatLaunch m) := by
      unfold Project.createClangFormatOp
      rw [h]
    rcases hl with hl | hl
    · unfold Project.generateOp
      simp [hl, Project.createCProjectOp, hclang, seqE]
    · unfold Project.generateOp
      simp [hl, Project.createCppProjectOp, hclang, seqE]

/-- C4 witness: a failed cargo launch leaves a Rust generation's result
untouched, and a failed clang-format launch aborts a C library
generation. -/
theorem C4_amended_fail_soft_except_clang_format_witness :
    Project.generateOp ⟨"demo", Lang.Rust, ProjectKind.Library, none⟩
        (envFull.withCargo (ToolOutcome.launchFailed "cargo missing"))
      = Project.generateOp ⟨"demo", Lang.Rust, ProjectKind.Library, none⟩ envFull
    ∧ Project.generateOp ⟨"demo", Lang.C, ProjectKind.Library, none⟩ envNoClang
      = Except.error (GenError.clangFormatLaunch "clang-format not found") :=
  ⟨C4_amended_fail_soft_except_clang_format.1
      ⟨"demo", Lang.Rust, ProjectKind.Library, none⟩ envFull
      (ToolOutcome.launchFailed "cargo missing"),
   C4_amended_fail_soft_except_clang_format.2.2.2
      ⟨"demo", Lang.C, ProjectKind.Library, none⟩ envNoClang
      "clang-format not found" rfl (Or.inl rfl)⟩

end Gen

namespace Gen

/-- C5: every successful generation, for every language and every kind,
ends with exactly the two common-tail writes: a `.gitignore` copied
verbatim from the template subtree, then a `Makefile` rendered from the
`Makefile.lib` template for Library and the `Makefile.bin` template for
Executable. -/
theorem C5_common_tail_gitignore_makefile (p : Project) (env : Env)
    (evs : List Event) (h : p.generateOp env = Except.ok evs) :
    ∃ pre gcontent tsrc mcontent,
      env.templates ".gitignore" = some gcontent
      ∧ env.templates (makefileTemplateName p.kind) = some tsrc
      ∧ renderTemplate tsrc p = some mcontent
      ∧ evs = pre ++ [Event.copied ".gitignore" (p.name ++ "/.gitignore") gcontent,
                      Event.rendered (makefileTemplateName p.kind)
                        (p.name ++ "/Makefile") mcontent] := by
  unfold Project.generateOp at h
  rcases seqE_ok_iff.mp h with ⟨le, hle, h2⟩
  rcases seqE_ok_iff.mp h2 with ⟨g, hg, h3⟩
  rcases seqE_ok_iff.mp h3 with ⟨m, hm, h4⟩
  unfold Project.createGitignoreOp at hg
  rcases copyOp_ok hg with ⟨gc, hgc, hgev⟩
  unfold Project.createMakefileOp at hm
  rcases templateOp_ok hm with ⟨ts, mc, hts, hmc, hmev⟩
  injection h4 with h4
  refine ⟨le, gc, ts, mc, hgc, hts, hmc, ?_⟩
  subst hgev
  subst hmev
  subst h4
  simp

/-- C5 witness: a concrete successful C++ library generation exhibits the
common tail. -/
theorem C5_common_tail_gitignore_makefile_witness :
    ∃ pre gcontent tsrc mcontent,
      envFull.templates ".gitignore" = some gcontent
      ∧ envFull.templates
          (makefileTemplateName (⟨"demo", Lang.Cpp, ProjectKind.Library, none⟩ : Project).kind)
        = some tsrc
      ∧ renderTemplate tsrc ⟨"demo", Lang.Cpp, ProjectKind.Library, none⟩ = some mcontent
      ∧ [Event.createdDir "demo", Event.createdDir "demo/src",
         Event.toolRun "clang-format", Event.toolStdoutFile "demo/.clang-format" "cfg",
         Event.copied ".gitignore" "demo/.gitignore" "",
         Event.rendered "Makefile.lib" "demo/Makefile" ""]
        = pre ++ [Event.copied ".gitignore"
            ((⟨"demo", Lang.Cpp, ProjectKind.Library, none⟩ : Project).name ++ "/.gitignore") gcontent,
          Event.rendered
            (makefileTemplateName (⟨"demo", Lang.Cpp, ProjectKind.Library, none⟩ : Project).kind)
            ((⟨"demo", Lang.Cpp, ProjectKind.Library, none⟩ : Project).name ++ "/Makefile") mcontent] :=
  C5_common_tail_gitignore_makefile ⟨"demo", Lang.Cpp, ProjectKind.Library, none⟩ envFull
    [Event.createdDir "demo", Event.createdDir "demo/src",
     Event.toolRun "clang-format", Event.toolStdoutFile "demo/.clang-format" "cfg",
     Event.copied ".gitignore" "demo/.gitignore" "",
     Event.rendered "Makefile.lib" "demo/Makefile" ""] rfl

end Gen

namespace Gen

theorem countEntryPoints_cProject {p : Project} {env : Env} {evs : List Event}
    (h : p.createCProjectOp env = Except.ok evs) :
    countEntryPoints evs = if p.kind = ProjectKind.Executable then 1 else 0 := by
  unfold Project.createCProjectOp at h
  rcases seqE_ok_iff.mp h with ⟨cf, hcf, hrest⟩
  rcases clangFormatOp_ok hcf with ⟨out, hcfe⟩
  subst hcfe
  by_cases hk : p.kind = ProjectKind.Executable
  · rw [if_pos hk] at hrest
    rcases seqE_ok_iff.mp hrest with ⟨mv, hmv, hfin⟩
    rcases copyOp_ok hmv with ⟨c, hc, hmev⟩
    subst hmev
    injection hfin with hfin
    subst hfin
    rw [if_pos hk]
    simp [countEntryPoints_append, countEntryPoints, Event.isEntryPoint]
  · rw [if_neg hk] at hrest
    injection hrest with hfin
    subst hfin
    rw [if_neg hk]
    simp [countEntryPoints, Event.isEntryPoint]

theorem countEntryPoints_cppProject {p : Project} {env : Env} {evs : List Event}
    (h : p.createCppProjectOp env = Except.ok evs) :
    countEntryPoints evs = if p.kind = ProjectKind.Executable then 1 else 0 := by
  unfold Project.createCppProjectOp at h
  rcases seqE_ok_iff.mp h with ⟨cf, hcf, hrest⟩
  rcases clangFormatOp_ok hcf with ⟨out, hcfe⟩
  subst hcfe
  by_cases hk : p.kind = ProjectKind.Executable
  · rw [if_pos hk] at hrest
    rcases seqE_ok_iff.mp hrest with ⟨mv, hmv, hfin⟩
    rcases templateOp_ok hmv with ⟨t, c, ht, hc, hmev⟩
    subst hmev
    injection hfin with hfin
    subst hfin
    rw [if_pos hk]
    simp [countEntryPoints_append, countEntryPoints, Event.isEntryPoint]
  · rw [if_neg hk] at hrest
    injection hrest with hfin
    subst hfin
    rw [if_neg hk]
    simp [countEntryPoints, Event.isEntryPoint]

theorem countEntryPoints_goProject {p : Project} {env : Env} {evs : List Event}
    (h : p.createGoProjectOp env = Except.ok evs) :
    countEntryPoints evs = if p.kind = ProjectKind.Executable then 1 else 0 := by
  unfold Project.createGoProjectOp at h
  rcases seqE_ok_iff.mp h with ⟨d, hd, hrest⟩
  by_cases hk : p.kind = ProjectKind.Executable
  · rw [if_pos hk] at hrest
    rcases seqE_ok_iff.mp hrest with ⟨mv, hmv, hfin⟩
    rcases templateOp_ok hmv with ⟨t, c, ht, hc, hmev⟩
    subst hmev
    injection hfin with hfin
    subst hfin
    rw [if_pos hk]
    simp [countEntryPoints, Event.isEntryPoint]
  · rw [if_neg hk] at hrest
    injection hrest with hfin
    subst hfin
    rw [if_neg hk]
    simp [countEntryPoints, Event.isEntryPoint]

theorem countEntryPoints_javaProject {p : Project} {env : Env} {evs : List Event}
    (h : p.createJavaProjectOp env = Except.ok evs) :
    countEntryPoints evs = 0 := by
  unfold Project.createJavaProjectOp at h
  rcases seqE_ok_iff.mp h with ⟨d, hd, hrest⟩
  rcases seqE_ok_iff.mp hrest with ⟨mv, hmv, hfin⟩
  rcases templateOp_ok hmv with ⟨t, c, ht, hc, hmev⟩
  subst hmev
  injection hfin with hfin
  subst hfin
  simp [countEntryPoints, Event.isEntryPoint]

theorem countEntryPoints_rustProject {p : Project} {env : Env} {evs : List Event}
    (h : p.createRustProjectOp env = Except.ok evs) :
    countEntryPoints evs = if p.kind = ProjectKind.Executable then 1 else 0 := by
  unfold Project.createRustProjectOp at h
  by_cases hk : p.kind = ProjectKind.Executable
  · rw [if_pos hk] at h
    rcases seqE_ok_iff.mp h with ⟨mv, hmv, hfin⟩
    rcases copyOp_ok hmv with ⟨c, hc, hmev⟩
    subst hmev
    injection hfin with hfin
    subst hfin
    rw [if_pos hk]
    simp [countEntryPoints_append, countEntryPoints, Event.isEntryPoint]
  · rw [if_neg hk] at h
    injection h with hfin
    subst hfin
    rw [if_neg hk]
    simp [countEntryPoints, Event.isEntryPoint]

end Gen

namespace Gen

/-- C2 counterexample: the claim quantifies over every language, but a
successful Java Executable generation creates no entry-point source file at
all (the program renders only `manifest.txt` and the common tail; the entry
point is left to the external archetype tool), so "exactly one" fails at
this concrete input. -/
theorem C2_counterexample_java_executable :
    Project.generateOp ⟨"demo", Lang.Java, ProjectKind.Executable, some "com.acme"⟩ envFull
      = Except.ok [Event.toolRun "mvn",
                   Event.rendered "manifest.txt" "demo/manifest.txt" "",
                   Event.copied ".gitignore" "demo/.gitignore" "",
                   Event.rendered "Makefile.bin" "demo/Makefile" ""]
    ∧ countEntryPoints [Event.toolRun "mvn",
                   Event.rendered "manifest.txt" "demo/manifest.txt" "",
                   Event.copied ".gitignore" "demo/.gitignore" "",
                   Event.rendered "Makefile.bin" "demo/Makefile" ""] ≠ 1 :=
  ⟨rfl, by decide⟩

/-- C2 amended: in every successful generation, Library kind never creates
an entry-point source file; Executable kind creates exactly one for every
language except Java; the program itself creates none for Java (either
kind), deferring the Java entry point to the external archetype
generator. -/
theorem C2_amended_entry_point_counts (p : Project) (env : Env)
    (evs : List Event) (h : p.generateOp env = Except.ok evs) :
    (p.kind = ProjectKind.Library → countEntryPoints evs = 0)
    ∧ (p.kind = ProjectKind.Executable → p.lang ≠ Lang.Java →
        countEntryPoints evs = 1)
    ∧ (p.lang = Lang.Java → countEntryPoints evs = 0) := by
  obtain ⟨name, lang, kind, domain⟩ := p
  unfold Project.generateOp at h
  rcases seqE_ok_iff.mp h with ⟨le, hle, h2⟩
  rcases seqE_ok_iff.mp h2 with ⟨g, hg, h3⟩
  rcases seqE_ok_iff.mp h3 with ⟨m, hm, h4⟩
  unfold Project.createGitignoreOp at hg
  rcases copyOp_ok hg with ⟨gc, hgc, hgev⟩
  unfold Project.createMakefileOp at hm
  rcases templateOp_ok hm with ⟨ts, mc, hts, hmc, hmev⟩
  injection h4 with h4
  subst hgev
  subst hmev
  subst h4
  have hk01 : countEntryPoints
      [Event.copied ".gitignore" (name ++ "/.gitignore") gc,
       Event.rendered (makefileTemplateName kind) (name ++ "/Makefile") mc] = 0 := by
    cases kind <;> simp [countEntryPoints, Event.isEntryPoint, makefileTemplateName]
  cases lang with
  | C =>
      rcases seqE_ok_iff.mp hle with ⟨e1, he1, he2⟩
      injection he2 with he2
      subst he2
      have hc := countEntryPoints_cProject he1
      cases kind <;>
        simp_all [countEntryPoints_append, countEntryPoints_createDirOp, hk01]
  | Cpp =>
      rcases seqE_ok_iff.mp hle with ⟨e1, he1, he2⟩
      injection he2 with he2
      subst he2
      have hc := countEntryPoints_cppProject he1
      cases kind <;>
        simp_all [countEntryPoints_append, countEntryPoints_createDirOp, hk01]
  | Go =>
      rcases seqE_ok_iff.mp hle with ⟨e1, he1, he2⟩
      injection he2 with he2
      subst he2
      have hc := countEntryPoints_goProject he1
      cases kind <;>
        simp_all [countEntryPoints_append, countEntryPoints_createDirOp, hk01]
  | Java =>
      have hc := countEntryPoints_javaProject hle
      cases kind <;> simp_all [countEntryPoints_append, hk01]
  | Rust =>
      have hc := countEntryPoints_rustProject hle
      cases kind <;> simp_all [countEntryPoints_append, hk01]

/-- C2 witness: a successful C executable generation creates exactly one
entry-point source file, and a successful Rust library generation creates
none. -/
theorem C2_amended_entry_point_counts_witness :
    countEntryPoints [Event.createdDir "demo", Event.createdDir "demo/src",
      Event.toolRun "clang-format", Event.toolStdoutFile "demo/.clang-format" "cfg",
      Event.copied "src/main.c" "demo/src/main.c" "",
      Event.copied ".gitignore" "demo/.gitignore" "",
      Event.rendered "Makefile.bin" "demo/Makefile" ""] = 1
    ∧ countEntryPoints [Event.toolRun "cargo", Event.createdEmpty "demo/src/lib.rs",
      Event.copied ".gitignore" "demo/.gitignore" "",
      Event.rendered "Makefile.lib" "demo/Makefile" ""] = 0 :=
  ⟨(C2_amended_entry_point_counts ⟨"demo", Lang.C, ProjectKind.Executable, none⟩ envFull
      [Event.createdDir "demo", Event.createdDir "demo/src",
       Event.toolRun "clang-format", Event.toolStdoutFile "demo/.clang-format" "cfg",
       Event.copied "src/main.c" "demo/src/main.c" "",
       Event.copied ".gitignore" "demo/.gitignore" "",
       Event.rendered "Makefile.bin" "demo/Makefile" ""] rfl).2.1 rfl (by decide),
   (C2_amended_entry_point_counts ⟨"demo", Lang.Rust, ProjectKind.Library, none⟩ envFull
      [Event.toolRun "cargo", Event.createdEmpty "demo/src/lib.rs",
       Event.copied ".gitignore" "demo/.gitignore" "",
       Event.rendered "Makefile.lib" "demo/Makefile" ""] rfl).1 rfl⟩

end Gen
